import Mathlib

/-!
Verification of the MS5607 pressure/temperature sensor driver
(`ms5607/ms5607.py`, with `convert_altitude` also in `altitude.py`).

The driver is embedded shallowly:
* Python integers become `ℤ` (or `ℕ` for byte/command values), and Python's
  floor division `//` becomes `Int.fdiv`;
* the float results `PRESS / 100.0`, `TEMP / 100.0` and the sleep durations
  are modelled exactly over `ℚ`, and the altitude formula (a real power)
  over `ℝ`;
* the i2c bus (`smbus.SMBus`) is an abstract state machine `BusIface σ`
  whose operations may fail with a `BusError`; every driver operation
  returns its result (or the raised error), the updated driver state and
  the list of bus transactions it performed, in order.
-/

namespace MS5607

/-! ## Device protocol constants (`ms5607.py`) -/

/-- Default i2c address of the sensor (`DEFAULT_SENSOR_ADDR`). -/
def DEFAULT_SENSOR_ADDR : Nat := 0x76

/-- Reset command (`_CMD_RESET`). -/
def CMD_RESET : Nat := 0x1E

/-- ROM read command for C1 (`_CMD_READ_C1`). -/
def CMD_READ_C1 : Nat := 0xA2

/-- ROM read command for C2 (`_CMD_READ_C2`). -/
def CMD_READ_C2 : Nat := 0xA4

/-- ROM read command for C3 (`_CMD_READ_C3`). -/
def CMD_READ_C3 : Nat := 0xA6

/-- ROM read command for C4 (`_CMD_READ_C4`). -/
def CMD_READ_C4 : Nat := 0xA8

/-- ROM read command for C5 (`_CMD_READ_C5`). -/
def CMD_READ_C5 : Nat := 0xAA

/-- ROM read command for C6 (`_CMD_READ_C6`). -/
def CMD_READ_C6 : Nat := 0xAC

/-- ADC result read command (`_CMD_READ_ADC`). -/
def CMD_READ_ADC : Nat := 0x00

/-- Map from OSR to pressure conversion command
(`_SELECT_PRESSURE_COMMANDS`); a missing key is `none`
(Python raises `KeyError`). -/
def SELECT_PRESSURE_COMMANDS (osr : Nat) : Option Nat :=
  if osr = 256 then some 0x40
  else if osr = 512 then some 0x42
  else if osr = 1024 then some 0x44
  else if osr = 2048 then some 0x46
  else if osr = 4096 then some 0x48
  else none

/-- Map from OSR to temperature conversion command
(`_SELECT_TEMPERATURE_COMMANDS`). -/
def SELECT_TEMPERATURE_COMMANDS (osr : Nat) : Option Nat :=
  if osr = 256 then some 0x50
  else if osr = 512 then some 0x52
  else if osr = 1024 then some 0x54
  else if osr = 2048 then some 0x56
  else if osr = 4096 then some 0x58
  else none

/-- Map from OSR to conversion settle time in seconds (`CONVERSION_TIMES`);
the Python values `0.60 / 1000`, ... are modelled exactly over `ℚ`. -/
def CONVERSION_TIMES (osr : Nat) : Option ℚ :=
  if osr = 256 then some (0.60 / 1000)
  else if osr = 512 then some (1.17 / 1000)
  else if osr = 1024 then some (2.28 / 1000)
  else if osr = 2048 then some (4.54 / 1000)
  else if osr = 4096 then some (9.04 / 1000)
  else none

/-- The supported oversampling rates (`OSRs`). -/
def OSRs : List Nat := [256, 512, 1024, 2048, 4096]

/-- Standard sea-level pressure in millibars (`STANDARD_PRESSURE`). -/
def STANDARD_PRESSURE : ℚ := 1013.25

/-! ## Calibration coefficients and compensation (`convert_raw_readings`) -/

/-- The six factory calibration coefficients, `self._coeffs` in the driver.
They are Python integers, so modelled as `ℤ`. -/
structure Coeffs where
  C1 : ℤ
  C2 : ℤ
  C3 : ℤ
  C4 : ℤ
  C5 : ℤ
  C6 : ℤ
  deriving DecidableEq, Repr

/-- `dT = raw_temperature - C5 * 2^8` (ms5607.py line 198). -/
def dTval (c : Coeffs) (raw_temperature : ℤ) : ℤ :=
  raw_temperature - c.C5 * 2 ^ 8

/-- First-order `TEMP = 2000 + dT * C6 // 2^23` (ms5607.py line 202);
Python's floor division `//` is `Int.fdiv`. -/
def TEMP1val (c : Coeffs) (raw_temperature : ℤ) : ℤ :=
  2000 + Int.fdiv (dTval c raw_temperature * c.C6) (2 ^ 23)

/-- The second-order temperature correction block of `convert_raw_readings`
(ms5607.py lines 214-245): given `dT` and the first-order `TEMP`, the
triple `(T2, OFF2, SENS2)`; the `else` branch sets all three to zero. -/
def secondOrder (dT TEMP1 : ℤ) : ℤ × ℤ × ℤ :=
  if TEMP1 < 2000 then
    let T2 := Int.fdiv (dT ^ 2) (2 ^ 31)
    let OFF2 := Int.fdiv (61 * (TEMP1 - 2000) ^ 2) (2 ^ 4)
    let SENS2 := 2 * (TEMP1 - 2000) ^ 2
    if TEMP1 < -1500 then
      (T2, OFF2 + 15 * (TEMP1 + 1500) ^ 2, SENS2 + 8 * (TEMP1 + 1500) ^ 2)
    else
      (T2, OFF2, SENS2)
  else
    (0, 0, 0)

/-- All intermediate values of `MS5607.convert_raw_readings`.  `TEMP1`,
`OFF1`, `SENS1` are the first-order values (the variables `TEMP`, `OFF`,
`SENS` before the second-order correction is subtracted); `TEMP`, `OFF`,
`SENS`, `PRESS` are the final values. -/
structure ConvertDetail where
  dT : ℤ
  TEMP1 : ℤ
  OFF1 : ℤ
  SENS1 : ℤ
  T2 : ℤ
  OFF2 : ℤ
  SENS2 : ℤ
  TEMP : ℤ
  OFF : ℤ
  SENS : ℤ
  PRESS : ℤ
  deriving DecidableEq, Repr

/-- The integer computation of `convert_raw_readings` (ms5607.py lines
186-258), transcribed statement by statement. -/
def convertDetail (c : Coeffs) (raw_pressure raw_temperature : ℤ) : ConvertDetail :=
  let dT := dTval c raw_temperature
  let TEMP1 := TEMP1val c raw_temperature
  let OFF1 := c.C2 * 2 ^ 17 + Int.fdiv (c.C4 * dT) (2 ^ 6)
  let SENS1 := c.C1 * 2 ^ 16 + Int.fdiv (c.C3 * dT) (2 ^ 7)
  let corr := secondOrder dT TEMP1
  let TEMP := TEMP1 - corr.1
  let OFF := OFF1 - corr.2.1
  let SENS := SENS1 - corr.2.2
  let PRESS := Int.fdiv (Int.fdiv (raw_pressure * SENS) (2 ^ 21) - OFF) (2 ^ 15)
  ⟨dT, TEMP1, OFF1, SENS1, corr.1, corr.2.1, corr.2.2, TEMP, OFF, SENS, PRESS⟩

/-- `MS5607.convert_raw_readings`: the final pair
`(PRESS / 100.0, TEMP / 100.0)`, modelled exactly over `ℚ`. -/
def convert_raw_readings (c : Coeffs) (raw_pressure raw_temperature : ℤ) : ℚ × ℚ :=
  let d := convertDetail c raw_pressure raw_temperature
  ((d.PRESS : ℚ) / 100, (d.TEMP : ℚ) / 100)

/-- First projection of `convert_raw_readings`, as the cast of the integer
`PRESS`. -/
theorem convert_raw_readings_fst (c : Coeffs) (raw_pressure raw_temperature : ℤ) :
    (convert_raw_readings c raw_pressure raw_temperature).1 =
      ((convertDetail c raw_pressure raw_temperature).PRESS : ℚ) / 100 := rfl

/-- Second projection of `convert_raw_readings`, as the cast of the integer
`TEMP`. -/
theorem convert_raw_readings_snd (c : Coeffs) (raw_pressure raw_temperature : ℤ) :
    (convert_raw_readings c raw_pressure raw_temperature).2 =
      ((convertDetail c raw_pressure raw_temperature).TEMP : ℚ) / 100 := rfl

/-- The calibration coefficients of the datasheet's example
(figure 2; used by `test.py` `test_conversion`). -/
def goldenCoeffs : Coeffs := ⟨46372, 43981, 29059, 27842, 31553, 28165⟩

/-- The integer `TEMP` of claim C2's formula, which has no second-order
correction. -/
def firstOrderTEMP (c : Coeffs) (raw_temperature : ℤ) : ℤ :=
  2000 + Int.fdiv ((raw_temperature - c.C5 * 2 ^ 8) * c.C6) (2 ^ 23)

/-- The integer `PRESS` of claim C2's formula, which has no second-order
correction. -/
def firstOrderPRESS (c : Coeffs) (raw_pressure raw_temperature : ℤ) : ℤ :=
  let dT := raw_temperature - c.C5 * 2 ^ 8
  let OFF := c.C2 * 2 ^ 17 + Int.fdiv (c.C4 * dT) (2 ^ 6)
  let SENS := c.C1 * 2 ^ 16 + Int.fdiv (c.C3 * dT) (2 ^ 7)
  Int.fdiv (Int.fdiv (raw_pressure * SENS) (2 ^ 21) - OFF) (2 ^ 15)

/-- Claim C2's formula, transcribed from the claim's own words: the purely
first-order fixed-point formula, with no second-order correction terms,
returning `(PRESS / 100, TEMP / 100)`. -/
def firstOrderFormula (c : Coeffs) (raw_pressure raw_temperature : ℤ) : ℚ × ℚ :=
  ((firstOrderPRESS c raw_pressure raw_temperature : ℚ) / 100,
   (firstOrderTEMP c raw_temperature : ℚ) / 100)

/-- The reference compensation algorithm as the specification states it
(section 4.4, CompensationEngine pseudocode), including the second-order
low-temperature correction, with floor integer division throughout. -/
def compensate_spec (c : Coeffs) (raw_pressure raw_temperature : ℤ) : ℚ × ℚ :=
  let dT := raw_temperature - c.C5 * 2 ^ 8
  let TEMP := 2000 + Int.fdiv (dT * c.C6) (2 ^ 23)
  let OFF := c.C2 * 2 ^ 17 + Int.fdiv (c.C4 * dT) (2 ^ 6)
  let SENS := c.C1 * 2 ^ 16 + Int.fdiv (c.C3 * dT) (2 ^ 7)
  let corr :=
    if TEMP < 2000 then
      let T2 := Int.fdiv (dT ^ 2) (2 ^ 31)
      let OFF2 := Int.fdiv (61 * (TEMP - 2000) ^ 2) (2 ^ 4)
      let SENS2 := 2 * (TEMP - 2000) ^ 2
      if TEMP < -1500 then
        (T2, OFF2 + 15 * (TEMP + 1500) ^ 2, SENS2 + 8 * (TEMP + 1500) ^ 2)
      else
        (T2, OFF2, SENS2)
    else
      (0, 0, 0)
  let TEMPc := TEMP - corr.1
  let OFFc := OFF - corr.2.1
  let SENSc := SENS - corr.2.2
  let PRESS := Int.fdiv (Int.fdiv (raw_pressure * SENSc) (2 ^ 21) - OFFc) (2 ^ 15)
  ((PRESS : ℚ) / 100, (TEMPc : ℚ) / 100)

/-- Closed form of the second-order correction triple, for reasoning:
each component as a sum of guarded terms. -/
theorem secondOrder_eq (dT TEMP1 : ℤ) :
    secondOrder dT TEMP1 =
      ((if TEMP1 < 2000 then Int.fdiv (dT ^ 2) (2 ^ 31) else 0),
       (if TEMP1 < 2000 then Int.fdiv (61 * (TEMP1 - 2000) ^ 2) (2 ^ 4) else 0) +
         (if TEMP1 < -1500 then 15 * (TEMP1 + 1500) ^ 2 else 0),
       (if TEMP1 < 2000 then 2 * (TEMP1 - 2000) ^ 2 else 0) +
         (if TEMP1 < -1500 then 8 * (TEMP1 + 1500) ^ 2 else 0)) := by
  unfold secondOrder
  dsimp only
  split_ifs with h1 h2 h3
  · rfl
  · simp
  · omega
  · simp

/-- When the first-order temperature is at least `2000`, the correction
triple is identically zero. -/
theorem secondOrder_of_ge (dT TEMP1 : ℤ) (h : 2000 ≤ TEMP1) :
    secondOrder dT TEMP1 = (0, 0, 0) := by
  unfold secondOrder
  rw [if_neg (by omega)]

/-- Below the `2000` threshold the offset correction is strictly positive. -/
theorem secondOrder_OFF2_pos (dT TEMP1 : ℤ) (h : TEMP1 < 2000) :
    0 < (secondOrder dT TEMP1).2.1 := by
  rw [secondOrder_eq]
  dsimp only
  have hfd : (0 : ℤ) < Int.fdiv (61 * (TEMP1 - 2000) ^ 2) (2 ^ 4) := by
    rw [Int.fdiv_eq_ediv _ (by norm_num)]
    have h61 : (61 : ℤ) ≤ 61 * (TEMP1 - 2000) ^ 2 := by
      nlinarith [sq_nonneg (TEMP1 - 1999)]
    have h3 : (61 : ℤ) / 2 ^ 4 ≤ 61 * (TEMP1 - 2000) ^ 2 / 2 ^ 4 :=
      Int.ediv_le_ediv (by norm_num) h61
    have h4 : ((61 : ℤ) / 2 ^ 4) = 3 := by decide
    omega
  rw [if_pos h]
  split_ifs with hv
  · nlinarith [sq_nonneg (TEMP1 + 1500)]
  · linarith

/-- Below the `2000` threshold the sensitivity correction is strictly
positive. -/
theorem secondOrder_SENS2_pos (dT TEMP1 : ℤ) (h : TEMP1 < 2000) :
    0 < (secondOrder dT TEMP1).2.2 := by
  rw [secondOrder_eq]
  dsimp only
  rw [if_pos h]
  split_ifs with hv
  · nlinarith [sq_nonneg (TEMP1 + 1500), sq_nonneg (TEMP1 - 1999)]
  · nlinarith [sq_nonneg (TEMP1 - 1999)]

/-! ## Claims C1, C2, C3 -/

/-- C1: with the datasheet's calibration coefficients
`(46372, 43981, 29059, 27842, 31553, 28165)`, converting
`raw_pressure = 6465444` and `raw_temperature = 8077636` yields the internal
integers `PRESS = 110002` and `TEMP = 2000`, hence pressure within `0.01` of
`1100.02` mbar and temperature within `0.01` of `20.00` degrees Celsius. -/
theorem golden_vector_conversion :
    (convertDetail goldenCoeffs 6465444 8077636).PRESS = 110002 ∧
    (convertDetail goldenCoeffs 6465444 8077636).TEMP = 2000 ∧
    |(convert_raw_readings goldenCoeffs 6465444 8077636).1 - 1100.02| ≤ 0.01 ∧
    |(convert_raw_readings goldenCoeffs 6465444 8077636).2 - 20.00| ≤ 0.01 := by
  have hP : (convertDetail goldenCoeffs 6465444 8077636).PRESS = 110002 := by decide
  have hT : (convertDetail goldenCoeffs 6465444 8077636).TEMP = 2000 := by decide
  refine ⟨hP, hT, ?_, ?_⟩
  · rw [convert_raw_readings_fst, hP]
    norm_num
  · rw [convert_raw_readings_snd, hT]
    norm_num

/-- C2 fails as stated: at coefficients `(46372, 43981, 29059, 27842, 31553,
28165)`, `raw_pressure = 6465444`, `raw_temperature = 8000000`, the code's
result differs from the claim's purely first-order formula (the code applies
the second-order correction, returning temperature `17.37`, not `17.39`). -/
theorem first_order_formula_counterexample :
    convert_raw_readings goldenCoeffs 6465444 8000000 ≠
      firstOrderFormula goldenCoeffs 6465444 8000000 := by
  have hcode : (convertDetail goldenCoeffs 6465444 8000000).TEMP = 1737 := by decide
  have hclaim : firstOrderTEMP goldenCoeffs 8000000 = 1739 := by decide
  intro h
  have h2 := congrArg Prod.snd h
  rw [convert_raw_readings_snd, hcode] at h2
  have h3 : (firstOrderFormula goldenCoeffs 6465444 8000000).2 =
      ((firstOrderTEMP goldenCoeffs 8000000 : ℤ) : ℚ) / 100 := rfl
  rw [h3, hclaim] at h2
  norm_num at h2

/-- C2 (amended): for every tuple of six coefficient integers and every pair
of integer raw inputs, `convert_raw_readings` computes exactly the reference
fixed-point formula of the specification, including the second-order
correction (`T2`, `OFF2`, `SENS2` subtracted whenever first-order
`TEMP < 2000`, with the additional very-low-temperature terms whenever
first-order `TEMP < -1500`), where every division is floor integer division,
returning `(PRESS / 100, TEMP / 100)`. -/
theorem convert_raw_readings_eq_spec (c : Coeffs) (raw_pressure raw_temperature : ℤ) :
    convert_raw_readings c raw_pressure raw_temperature =
      compensate_spec c raw_pressure raw_temperature := rfl

/-- C3 fails as stated: at coefficients `(46372, 43981, 29059, 27842, 31553,
28165)`, `raw_pressure = 6465444`, `raw_temperature = 8077268`, the
first-order `TEMP` is `1998 < 2000` yet the second-order term `T2` is zero
(`dT = -300`, and `dT^2 // 2^31` floors to `0`), so it is not the case that
each correction term is nonzero exactly when first-order `TEMP < 2000`. -/
theorem T2_zero_below_threshold_counterexample :
    (convertDetail goldenCoeffs 6465444 8077268).TEMP1 < 2000 ∧
    (convertDetail goldenCoeffs 6465444 8077268).T2 = 0 := by
  decide

/-- C3 (amended): the second-order branch conditions are evaluated on the
first-order `TEMP` value (before `T2` is subtracted, so the final
temperature is `TEMP1 - T2`); the correction triple `(T2, OFF2, SENS2)` is
nonzero — indeed `OFF2` and `SENS2` are strictly positive, though `T2`
itself may be zero for small `|dT|` — exactly when first-order
`TEMP < 2000`; the additive very-low-temperature terms are applied, and are
nonzero, exactly when first-order `TEMP < -1500`; and
`T2 = OFF2 = SENS2 = 0` whenever first-order `TEMP ≥ 2000`. -/
theorem second_order_correction_activation (c : Coeffs) (raw_pressure raw_temperature : ℤ) :
    let d := convertDetail c raw_pressure raw_temperature
    (d.TEMP = d.TEMP1 - d.T2) ∧
    ((d.T2, d.OFF2, d.SENS2) ≠ (0, 0, 0) ↔ d.TEMP1 < 2000) ∧
    (d.TEMP1 < 2000 → 0 < d.OFF2 ∧ 0 < d.SENS2) ∧
    (2000 ≤ d.TEMP1 → d.T2 = 0 ∧ d.OFF2 = 0 ∧ d.SENS2 = 0) ∧
    (d.T2 = if d.TEMP1 < 2000 then Int.fdiv (d.dT ^ 2) (2 ^ 31) else 0) ∧
    (d.OFF2 =
      (if d.TEMP1 < 2000 then Int.fdiv (61 * (d.TEMP1 - 2000) ^ 2) (2 ^ 4) else 0) +
      (if d.TEMP1 < -1500 then 15 * (d.TEMP1 + 1500) ^ 2 else 0)) ∧
    (d.SENS2 =
      (if d.TEMP1 < 2000 then 2 * (d.TEMP1 - 2000) ^ 2 else 0) +
      (if d.TEMP1 < -1500 then 8 * (d.TEMP1 + 1500) ^ 2 else 0)) ∧
    ((if d.TEMP1 < -1500 then (15 : ℤ) * (d.TEMP1 + 1500) ^ 2 else 0) ≠ 0 ↔
      d.TEMP1 < -1500) := by
  intro d
  have hT2 : d.T2 = (secondOrder d.dT d.TEMP1).1 := rfl
  have hO2 : d.OFF2 = (secondOrder d.dT d.TEMP1).2.1 := rfl
  have hS2 : d.SENS2 = (secondOrder d.dT d.TEMP1).2.2 := rfl
  have hTE : d.TEMP = d.TEMP1 - d.T2 := rfl
  have hpos : d.TEMP1 < 2000 → 0 < d.OFF2 ∧ 0 < d.SENS2 := by
    intro h
    exact ⟨hO2 ▸ secondOrder_OFF2_pos d.dT d.TEMP1 h,
      hS2 ▸ secondOrder_SENS2_pos d.dT d.TEMP1 h⟩
  have hzero : 2000 ≤ d.TEMP1 → d.T2 = 0 ∧ d.OFF2 = 0 ∧ d.SENS2 = 0 := by
    intro h
    rw [hT2, hO2, hS2, secondOrder_of_ge d.dT d.TEMP1 h]
    exact ⟨rfl, rfl, rfl⟩
  refine ⟨hTE, ?_, hpos, hzero, ?_, ?_, ?_, ?_⟩
  · constructor
    · intro hne
      by_contra hge
      have h0 := hzero (by omega)
      exact hne (by rw [h0.1, h0.2.1, h0.2.2])
    · intro hlt heq
      have := (hpos hlt).2
      have hS0 : d.SENS2 = 0 := congrArg (fun p => p.2.2) heq
      omega
  · rw [hT2, secondOrder_eq]
  · rw [hO2, secondOrder_eq]
  · rw [hS2, secondOrder_eq]
  · split_ifs with hv
    · have : (0 : ℤ) < 15 * (d.TEMP1 + 1500) ^ 2 := by
        nlinarith [sq_nonneg (d.TEMP1 + 1501)]
      constructor
      · intro _; exact hv
      · intro _; omega
    · simp [hv]

end MS5607

namespace MS5607

/-! ## Bus model and driver operations -/

/-- An error raised by the underlying smbus transport. -/
structure BusError where
  code : Nat
  deriving DecidableEq, Repr

/-- Errors a driver operation can raise: `config` models the `KeyError`
raised by an OSR lookup outside the supported tables (the specification's
ConfigurationError); `bus` wraps a transport error. -/
inductive DriverError where
  | config (osr : Nat)
  | bus (e : BusError)
  deriving DecidableEq, Repr

/-- One bus transaction or sleep, as recorded in a trace, in order. -/
inductive Txn where
  | write (addr cmd : Nat)
  | read (addr cmd size : Nat)
  | sleep (seconds : ℚ)
  deriving DecidableEq, Repr

/-- The byte-level bus capability (`smbus.SMBus`): an abstract bus state
`σ` with a byte write (`write_byte`) and a block read
(`read_i2c_block_data`), either of which may fail with a `BusError`. -/
structure BusIface (σ : Type) where
  writeByte : σ → Nat → Nat → Except BusError σ
  readBlock : σ → Nat → Nat → Nat → Except BusError (List Nat × σ)

/-- The state of a driver instance: the bus handle plus the `self.address`
and `self._coeffs` attributes. -/
structure DriverState (σ : Type) where
  bus : σ
  address : Nat
  coeffs : Coeffs
  deriving DecidableEq, Repr

variable {σ : Type}

/-- The reassembly loop of `MS5607._read`:
`result |= byte << ((size - i - 1) * 8)` over the enumerated bytes. -/
def assembleAux (size : Nat) : Nat → List Nat → Nat → Nat
  | _, [], acc => acc
  | i, b :: rest, acc => assembleAux size (i + 1) rest (acc ||| (b <<< ((size - i - 1) * 8)))

/-- The reassembly of `MS5607._read`: bytes arrive
most-significant-byte-first and are shifted into one integer. -/
def assemble (size : Nat) (bytes : List Nat) : Nat := assembleAux size 0 bytes 0

/-- `MS5607._read`: issue request `cmd`, read `size` bytes, reassemble. -/
def mread (iface : BusIface σ) (bus : σ) (addr cmd size : Nat) :
    (Except BusError (Nat × σ)) × List Txn :=
  match iface.readBlock bus addr cmd size with
  | .error e => (.error e, [.read addr cmd size])
  | .ok (bytes, bus2) => (.ok (assemble size bytes, bus2), [.read addr cmd size])

/-- `MS5607.read_raw_pressure`: look the OSR up in the command table
(a missing key raises before any bus access), write the select command,
sleep the conversion time, read the 3-byte ADC result. -/
def read_raw_pressure (iface : BusIface σ) (osr : Nat) (st : DriverState σ) :
    (Except DriverError Nat) × DriverState σ × List Txn :=
  match SELECT_PRESSURE_COMMANDS osr with
  | none => (.error (.config osr), st, [])
  | some cmd =>
    match iface.writeByte st.bus st.address cmd with
    | .error e => (.error (.bus e), st, [.write st.address cmd])
    | .ok bus1 =>
      match CONVERSION_TIMES osr with
      | none => (.error (.config osr), { st with bus := bus1 }, [.write st.address cmd])
      | some t =>
        match mread iface bus1 st.address CMD_READ_ADC 3 with
        | (.error e, trr) => (.error (.bus e), { st with bus := bus1 },
            .write st.address cmd :: .sleep t :: trr)
        | (.ok (v, bus2), trr) => (.ok v, { st with bus := bus2 },
            .write st.address cmd :: .sleep t :: trr)

/-- `MS5607.read_raw_temperature`, identical to `read_raw_pressure` except
for the command table. -/
def read_raw_temperature (iface : BusIface σ) (osr : Nat) (st : DriverState σ) :
    (Except DriverError Nat) × DriverState σ × List Txn :=
  match SELECT_TEMPERATURE_COMMANDS osr with
  | none => (.error (.config osr), st, [])
  | some cmd =>
    match iface.writeByte st.bus st.address cmd with
    | .error e => (.error (.bus e), st, [.write st.address cmd])
    | .ok bus1 =>
      match CONVERSION_TIMES osr with
      | none => (.error (.config osr), { st with bus := bus1 }, [.write st.address cmd])
      | some t =>
        match mread iface bus1 st.address CMD_READ_ADC 3 with
        | (.error e, trr) => (.error (.bus e), { st with bus := bus1 },
            .write st.address cmd :: .sleep t :: trr)
        | (.ok (v, bus2), trr) => (.ok v, { st with bus := bus2 },
            .write st.address cmd :: .sleep t :: trr)

/-- Default value of the `osr` parameter of `read_raw_pressure`
(`osr=4096` in its signature). -/
def READ_RAW_PRESSURE_DEFAULT_OSR : Nat := 4096

/-- Default value of the `osr` parameter of `read_raw_temperature`
(`osr=256` in its signature). -/
def READ_RAW_TEMPERATURE_DEFAULT_OSR : Nat := 256

/-- Default value of the `pressure_osr` parameter of `read`. -/
def READ_DEFAULT_PRESSURE_OSR : Nat := 4096

/-- Default value of the `temperature_osr` parameter of `read`. -/
def READ_DEFAULT_TEMPERATURE_OSR : Nat := 4096

/-- `read_raw_temperature` called with no argument, as in
`self.read_raw_temperature()`. -/
def read_raw_temperature_default (iface : BusIface σ) (st : DriverState σ) :
    (Except DriverError Nat) × DriverState σ × List Txn :=
  read_raw_temperature iface READ_RAW_TEMPERATURE_DEFAULT_OSR st

/-- `MS5607.read`: raw pressure, then raw temperature, then compensation
with the stored coefficients. -/
def read (iface : BusIface σ) (pressure_osr temperature_osr : Nat) (st : DriverState σ) :
    (Except DriverError (ℚ × ℚ)) × DriverState σ × List Txn :=
  match read_raw_pressure iface pressure_osr st with
  | (.error e, st1, tr1) => (.error e, st1, tr1)
  | (.ok raw_pressure, st1, tr1) =>
    match read_raw_temperature iface temperature_osr st1 with
    | (.error e, st2, tr2) => (.error e, st2, tr1 ++ tr2)
    | (.ok raw_temperature, st2, tr2) =>
      (.ok (convert_raw_readings st2.coeffs (raw_pressure : ℤ) (raw_temperature : ℤ)),
        st2, tr1 ++ tr2)

/-- A trivial concrete bus over `Unit` state: writes succeed and block
reads return zero bytes.  Used to instantiate universally quantified
theorems at a concrete input. -/
def zeroBus : BusIface Unit where
  writeByte := fun s _ _ => .ok s
  readBlock := fun s _ _ size => .ok (List.replicate size 0, s)

/-- A concrete bus whose block reads fail with `BusError` code `5`. -/
def failBus : BusIface Unit where
  writeByte := fun s _ _ => .ok s
  readBlock := fun _ _ _ _ => .error ⟨5⟩

/-- A concrete driver state over the trivial bus, with all-zero
coefficients. -/
def zeroState : DriverState Unit := ⟨(), DEFAULT_SENSOR_ADDR, ⟨0, 0, 0, 0, 0, 0⟩⟩

end MS5607

namespace MS5607

variable {σ : Type}

/-! ## Claim C4: command and settle-time tables -/

/-- C4: the pressure-conversion command table maps the five supported OSR
values to `0x40, 0x42, 0x44, 0x46, 0x48`, the temperature table to
`0x50, 0x52, 0x54, 0x56, 0x58` (all ten bytes pairwise distinct), and the
settle-time table, shared by both channels, maps them to
`0.60, 1.17, 2.28, 4.54, 9.04` milliseconds. -/
theorem conversion_tables_complete :
    (SELECT_PRESSURE_COMMANDS 256 = some 0x40 ∧
     SELECT_PRESSURE_COMMANDS 512 = some 0x42 ∧
     SELECT_PRESSURE_COMMANDS 1024 = some 0x44 ∧
     SELECT_PRESSURE_COMMANDS 2048 = some 0x46 ∧
     SELECT_PRESSURE_COMMANDS 4096 = some 0x48) ∧
    (SELECT_TEMPERATURE_COMMANDS 256 = some 0x50 ∧
     SELECT_TEMPERATURE_COMMANDS 512 = some 0x52 ∧
     SELECT_TEMPERATURE_COMMANDS 1024 = some 0x54 ∧
     SELECT_TEMPERATURE_COMMANDS 2048 = some 0x56 ∧
     SELECT_TEMPERATURE_COMMANDS 4096 = some 0x58) ∧
    List.Pairwise (· ≠ ·)
      [0x40, 0x42, 0x44, 0x46, 0x48, 0x50, 0x52, 0x54, 0x56, 0x58] ∧
    (CONVERSION_TIMES 256 = some (0.60 / 1000) ∧
     CONVERSION_TIMES 512 = some (1.17 / 1000) ∧
     CONVERSION_TIMES 1024 = some (2.28 / 1000) ∧
     CONVERSION_TIMES 2048 = some (4.54 / 1000) ∧
     CONVERSION_TIMES 4096 = some (9.04 / 1000)) := by
  refine ⟨⟨rfl, rfl, rfl, rfl, rfl⟩, ⟨rfl, rfl, rfl, rfl, rfl⟩, by decide,
    rfl, rfl, rfl, rfl, rfl⟩

/-! ## Claim C5: invalid OSR fails fast -/

/-- An OSR outside the supported list misses the pressure command table. -/
theorem select_pressure_commands_eq_none {osr : Nat} (h : osr ∉ OSRs) :
    SELECT_PRESSURE_COMMANDS osr = none := by
  unfold OSRs at h
  simp only [List.mem_cons, List.not_mem_nil, or_false, not_or] at h
  obtain ⟨h1, h2, h3, h4, h5⟩ := h
  unfold SELECT_PRESSURE_COMMANDS
  simp [h1, h2, h3, h4, h5]

/-- An OSR outside the supported list misses the temperature command
table. -/
theorem select_temperature_commands_eq_none {osr : Nat} (h : osr ∉ OSRs) :
    SELECT_TEMPERATURE_COMMANDS osr = none := by
  unfold OSRs at h
  simp only [List.mem_cons, List.not_mem_nil, or_false, not_or] at h
  obtain ⟨h1, h2, h3, h4, h5⟩ := h
  unfold SELECT_TEMPERATURE_COMMANDS
  simp [h1, h2, h3, h4, h5]

/-- C5: for every OSR outside the five supported values,
`read_raw_pressure` and `read_raw_temperature` fail with the configuration
error (the `KeyError` of the table lookup) before any bus access: the
driver state is unchanged and the transaction trace is empty. -/
theorem invalid_osr_fails_fast (iface : BusIface σ) (st : DriverState σ)
    (osr : Nat) (h : osr ∉ OSRs) :
    read_raw_pressure iface osr st = (.error (.config osr), st, []) ∧
    read_raw_temperature iface osr st = (.error (.config osr), st, []) := by
  unfold read_raw_pressure read_raw_temperature
  rw [select_pressure_commands_eq_none h, select_temperature_commands_eq_none h]
  exact ⟨rfl, rfl⟩

/-- C5 witness: `osr = 999` is unsupported and fails fast on a concrete
bus. -/
theorem invalid_osr_fails_fast_witness :
    999 ∉ OSRs ∧
    (read_raw_pressure zeroBus 999 zeroState = (.error (.config 999), zeroState, []) ∧
     read_raw_temperature zeroBus 999 zeroState = (.error (.config 999), zeroState, [])) :=
  ⟨by decide, invalid_osr_fails_fast zeroBus zeroState 999 (by decide)⟩

end MS5607

namespace MS5607

variable {σ : Type}

/-! ## Claim C8: 3-byte ADC read, most-significant-byte-first -/

/-- Shifting `a` left past `b` and or-ing is addition when `b` fits in the
shifted-out bits. -/
theorem shiftLeft_lor_eq_add {a b : Nat} (k : Nat) (h : b < 2 ^ k) :
    (a <<< k) ||| b = a * 2 ^ k + b := by
  apply Nat.eq_of_testBit_eq
  intro i
  rw [Nat.testBit_lor, Nat.testBit_shiftLeft]
  rcases Nat.lt_or_ge i k with hik | hik
  · have e1 : decide (i ≥ k) = false := decide_eq_false (by omega)
    rw [e1, Bool.false_and, Bool.false_or, Nat.testBit_to_div_mod, Nat.testBit_to_div_mod]
    have hsplit : (2 : ℕ) ^ (k - i - 1) * 2 * 2 ^ i = 2 ^ k := by
      rw [← pow_succ, ← pow_add]
      congr 1
      omega
    have hk : a * 2 ^ k + b = b + a * 2 ^ (k - i - 1) * 2 * 2 ^ i := by
      rw [← hsplit]; ring
    have h2 : (a * 2 ^ k + b) / 2 ^ i % 2 = b / 2 ^ i % 2 := by
      rw [hk, Nat.add_mul_div_right _ _ (Nat.pos_pow_of_pos i (by norm_num)),
        Nat.add_mul_mod_self_right]
    rw [h2]
  · have e1 : decide (i ≥ k) = true := decide_eq_true hik
    rw [e1, Bool.true_and]
    have hb : b.testBit i = false :=
      Nat.testBit_lt_two_pow (lt_of_lt_of_le h (Nat.pow_le_pow_right (by norm_num) hik))
    rw [hb, Bool.or_false, Nat.testBit_to_div_mod, Nat.testBit_to_div_mod]
    have h2 : (a * 2 ^ k + b) / 2 ^ i = a / 2 ^ (i - k) := by
      have hsplit : (2 : ℕ) ^ i = 2 ^ k * 2 ^ (i - k) := by
        rw [← pow_add]; congr 1; omega
      rw [hsplit, ← Nat.div_div_eq_div_mul]
      have h3 : (a * 2 ^ k + b) / 2 ^ k = a := by
        rw [Nat.mul_comm, Nat.mul_add_div (Nat.pos_pow_of_pos k (by norm_num)),
          Nat.div_eq_of_lt h, Nat.add_zero]
      rw [h3]
    rw [h2]

/-- Unfolding the reassembly loop on a 3-byte read. -/
theorem assemble_three (b0 b1 b2 : Nat) :
    assemble 3 [b0, b1, b2] = ((b0 <<< 16) ||| (b1 <<< 8)) ||| b2 := by
  show assembleAux 3 0 [b0, b1, b2] 0 = ((b0 <<< 16) ||| (b1 <<< 8)) ||| b2
  unfold assembleAux assembleAux assembleAux assembleAux
  norm_num [Nat.zero_or, Nat.shiftLeft_zero]

/-- The 3-byte reassembly is exactly `b0 * 2^16 + b1 * 2^8 + b2`. -/
theorem assemble_three_eq {b0 b1 b2 : Nat} (hb0 : b0 < 256) (hb1 : b1 < 256)
    (hb2 : b2 < 256) :
    assemble 3 [b0, b1, b2] = b0 * 2 ^ 16 + b1 * 2 ^ 8 + b2 := by
  rw [assemble_three, Nat.lor_assoc]
  have h1 : (b1 <<< 8) ||| b2 = b1 * 2 ^ 8 + b2 :=
    shiftLeft_lor_eq_add 8 (by norm_num at hb2 ⊢; omega)
  rw [h1]
  have h2 : b1 * 2 ^ 8 + b2 < 2 ^ 16 := by omega
  rw [shiftLeft_lor_eq_add 16 h2]
  ring

/-- Inversion of a successful `read_raw_pressure`: the command came from
the pressure table, the settle time from the conversion-time table, the
value is the reassembly of the 3 bytes read with the ADC command, and the
trace is write-sleep-read. -/
theorem read_raw_pressure_ok_inv (iface : BusIface σ) (osr : Nat) (st : DriverState σ)
    {v : Nat} {st2 : DriverState σ} {tr : List Txn}
    (h : read_raw_pressure iface osr st = (.ok v, st2, tr)) :
    ∃ cmd t bytes bus1 bus2,
      SELECT_PRESSURE_COMMANDS osr = some cmd ∧
      CONVERSION_TIMES osr = some t ∧
      iface.writeByte st.bus st.address cmd = .ok bus1 ∧
      iface.readBlock bus1 st.address CMD_READ_ADC 3 = .ok (bytes, bus2) ∧
      v = assemble 3 bytes ∧
      st2 = { st with bus := bus2 } ∧
      tr = [.write st.address cmd, .sleep t, .read st.address CMD_READ_ADC 3] := by
  unfold read_raw_pressure at h
  cases hsel : SELECT_PRESSURE_COMMANDS osr with
  | none => simp [hsel] at h
  | some cmd =>
    simp only [hsel] at h
    cases hw : iface.writeByte st.bus st.address cmd with
    | error e => simp [hw] at h
    | ok bus1 =>
      simp only [hw] at h
      cases hct : CONVERSION_TIMES osr with
      | none => simp [hct] at h
      | some t =>
        simp only [hct] at h
        unfold mread at h
        cases hr : iface.readBlock bus1 st.address CMD_READ_ADC 3 with
        | error e => simp [hr] at h
        | ok pr =>
          obtain ⟨bytes, bus2⟩ := pr
          simp only [hr] at h
          simp only [Prod.mk.injEq, Except.ok.injEq] at h
          obtain ⟨hv, hst, htr⟩ := h
          exact ⟨cmd, t, bytes, bus1, bus2, rfl, rfl, hw, hr, hv.symm, hst.symm, htr.symm⟩

/-- Inversion of a successful `read_raw_temperature`, as for pressure. -/
theorem read_raw_temperature_ok_inv (iface : BusIface σ) (osr : Nat) (st : DriverState σ)
    {v : Nat} {st2 : DriverState σ} {tr : List Txn}
    (h : read_raw_temperature iface osr st = (.ok v, st2, tr)) :
    ∃ cmd t bytes bus1 bus2,
      SELECT_TEMPERATURE_COMMANDS osr = some cmd ∧
      CONVERSION_TIMES osr = some t ∧
      iface.writeByte st.bus st.address cmd = .ok bus1 ∧
      iface.readBlock bus1 st.address CMD_READ_ADC 3 = .ok (bytes, bus2) ∧
      v = assemble 3 bytes ∧
      st2 = { st with bus := bus2 } ∧
      tr = [.write st.address cmd, .sleep t, .read st.address CMD_READ_ADC 3] := by
  unfold read_raw_temperature at h
  cases hsel : SELECT_TEMPERATURE_COMMANDS osr with
  | none => simp [hsel] at h
  | some cmd =>
    simp only [hsel] at h
    cases hw : iface.writeByte st.bus st.address cmd with
    | error e => simp [hw] at h
    | ok bus1 =>
      simp only [hw] at h
      cases hct : CONVERSION_TIMES osr with
      | none => simp [hct] at h
      | some t =>
        simp only [hct] at h
        unfold mread at h
        cases hr : iface.readBlock bus1 st.address CMD_READ_ADC 3 with
        | error e => simp [hr] at h
        | ok pr =>
          obtain ⟨bytes, bus2⟩ := pr
          simp only [hr] at h
          simp only [Prod.mk.injEq, Except.ok.injEq] at h
          obtain ⟨hv, hst, htr⟩ := h
          exact ⟨cmd, t, bytes, bus1, bus2, rfl, rfl, hw, hr, hv.symm, hst.symm, htr.symm⟩

end MS5607

namespace MS5607

variable {σ : Type}

/-- C8: `read_raw_pressure` and `read_raw_temperature` obtain the raw
sample by reading exactly 3 bytes with the ADC-result command `0x00` and
reassembling them most-significant-byte-first: for bytes `[b0, b1, b2]`
the result is `b0 * 2^16 + b1 * 2^8 + b2`, an unsigned integer below
`2^24` when each byte is below `256`. -/
theorem adc_read_three_bytes_msb_first :
    CMD_READ_ADC = 0x00 ∧
    (∀ b0 b1 b2 : Nat, b0 < 256 → b1 < 256 → b2 < 256 →
      assemble 3 [b0, b1, b2] = b0 * 2 ^ 16 + b1 * 2 ^ 8 + b2 ∧
      assemble 3 [b0, b1, b2] < 2 ^ 24) ∧
    (∀ (σ : Type) (iface : BusIface σ) (st : DriverState σ) (osr v : Nat)
        (st2 : DriverState σ) (tr : List Txn),
      read_raw_pressure iface osr st = (.ok v, st2, tr) →
      ∃ cmd t bytes bus1 bus2,
        SELECT_PRESSURE_COMMANDS osr = some cmd ∧
        CONVERSION_TIMES osr = some t ∧
        iface.writeByte st.bus st.address cmd = .ok bus1 ∧
        iface.readBlock bus1 st.address CMD_READ_ADC 3 = .ok (bytes, bus2) ∧
        v = assemble 3 bytes ∧
        st2 = { st with bus := bus2 } ∧
        tr = [.write st.address cmd, .sleep t, .read st.address CMD_READ_ADC 3]) ∧
    (∀ (σ : Type) (iface : BusIface σ) (st : DriverState σ) (osr v : Nat)
        (st2 : DriverState σ) (tr : List Txn),
      read_raw_temperature iface osr st = (.ok v, st2, tr) →
      ∃ cmd t bytes bus1 bus2,
        SELECT_TEMPERATURE_COMMANDS osr = some cmd ∧
        CONVERSION_TIMES osr = some t ∧
        iface.writeByte st.bus st.address cmd = .ok bus1 ∧
        iface.readBlock bus1 st.address CMD_READ_ADC 3 = .ok (bytes, bus2) ∧
        v = assemble 3 bytes ∧
        st2 = { st with bus := bus2 } ∧
        tr = [.write st.address cmd, .sleep t, .read st.address CMD_READ_ADC 3]) := by
  refine ⟨rfl, ?_, ?_, ?_⟩
  · intro b0 b1 b2 hb0 hb1 hb2
    have he := assemble_three_eq hb0 hb1 hb2
    exact ⟨he, by omega⟩
  · intro τ iface st osr v st2 tr h
    exact read_raw_pressure_ok_inv iface osr st h
  · intro τ iface st osr v st2 tr h
    exact read_raw_temperature_ok_inv iface osr st h

/-- C8 witness: the reassembly equation at bytes `[1, 2, 3]` and the
successful-read inversion on the concrete zero bus at `osr = 4096`. -/
theorem adc_read_three_bytes_msb_first_witness :
    (assemble 3 [1, 2, 3] = 1 * 2 ^ 16 + 2 * 2 ^ 8 + 3 ∧
     assemble 3 [1, 2, 3] < 2 ^ 24) ∧
    (∃ cmd t bytes bus1 bus2,
      SELECT_PRESSURE_COMMANDS 4096 = some cmd ∧
      CONVERSION_TIMES 4096 = some t ∧
      zeroBus.writeByte zeroState.bus zeroState.address cmd = .ok bus1 ∧
      zeroBus.readBlock bus1 zeroState.address CMD_READ_ADC 3 = .ok (bytes, bus2) ∧
      (0 : Nat) = assemble 3 bytes ∧
      zeroState = { zeroState with bus := bus2 } ∧
      ([Txn.write 0x76 0x48, Txn.sleep (9.04 / 1000), Txn.read 0x76 0x00 3] : List Txn) =
        [.write zeroState.address cmd, .sleep t, .read zeroState.address CMD_READ_ADC 3]) :=
  ⟨adc_read_three_bytes_msb_first.2.1 1 2 3 (by decide) (by decide) (by decide),
   adc_read_three_bytes_msb_first.2.2.1 Unit zeroBus zeroState 4096 0 zeroState
     [Txn.write 0x76 0x48, Txn.sleep (9.04 / 1000), Txn.read 0x76 0x00 3] rfl⟩

/-! ## Claim C10: the no-argument default of `read_raw_temperature` -/

/-- C10: calling `read_raw_temperature` with no argument uses `osr = 256`:
it issues command byte `0x50` and sleeps `0.60` milliseconds before the
3-byte ADC read — while `read()`'s own default passes
`temperature_osr = 4096`, whose command byte is `0x58`, so the
no-argument raw call behaves differently from the default path through
`read()` (contradicting the docstring's claimed default of 4096). -/
theorem read_raw_temperature_default_uses_256 (iface : BusIface σ) (st : DriverState σ) :
    READ_RAW_TEMPERATURE_DEFAULT_OSR = 256 ∧
    SELECT_TEMPERATURE_COMMANDS READ_RAW_TEMPERATURE_DEFAULT_OSR = some 0x50 ∧
    CONVERSION_TIMES READ_RAW_TEMPERATURE_DEFAULT_OSR = some (0.60 / 1000) ∧
    READ_DEFAULT_TEMPERATURE_OSR = 4096 ∧
    SELECT_TEMPERATURE_COMMANDS READ_DEFAULT_TEMPERATURE_OSR = some 0x58 ∧
    (0x50 : Nat) ≠ 0x58 ∧
    ((read_raw_temperature_default iface st).2.2 = [.write st.address 0x50] ∨
     (read_raw_temperature_default iface st).2.2 =
       [.write st.address 0x50, .sleep (0.60 / 1000), .read st.address CMD_READ_ADC 3]) := by
  refine ⟨rfl, rfl, rfl, rfl, rfl, by decide, ?_⟩
  unfold read_raw_temperature_default read_raw_temperature
  have hsel : SELECT_TEMPERATURE_COMMANDS READ_RAW_TEMPERATURE_DEFAULT_OSR = some 0x50 := rfl
  have hct : CONVERSION_TIMES READ_RAW_TEMPERATURE_DEFAULT_OSR = some (0.60 / 1000) := rfl
  rw [hsel]
  cases hw : iface.writeByte st.bus st.address 0x50 with
  | error e => simp [hw]
  | ok bus1 =>
    simp only [hw]
    rw [hct]
    unfold mread
    cases hr : iface.readBlock bus1 st.address CMD_READ_ADC 3 with
    | error e => simp [hr]
    | ok pr =>
      obtain ⟨bytes, bus2⟩ := pr
      simp [hr]

end MS5607

namespace MS5607

variable {σ : Type}

/-! ## Altitude estimation (`convert_altitude`, `read_altitude`) -/

/-- `convert_altitude` (altitude.py / ms5607.py): the barometric formula
`44330.76923 * (1 - (P / P0) ** 0.190264)`, over `ℝ` (the exponent is a
real power). -/
noncomputable def convert_altitude (local_pressure sea_level_pressure : ℚ) : ℝ :=
  44330.76923 * (1 - ((local_pressure : ℝ) / (sea_level_pressure : ℝ)) ^ (0.190264 : ℝ))

/-- Default value of the `samples` parameter of `read_altitude`. -/
def READ_ALTITUDE_DEFAULT_SAMPLES : Nat := 48

/-- The accumulation loop of `read_altitude`: for each of the remaining
iterations, sleep 1 ms, perform a full `read`, and add the pressure
component to the accumulator.  A failed read aborts the loop with its
error. -/
def read_altitude_loop (iface : BusIface σ) (pressure_osr temperature_osr : Nat) :
    Nat → DriverState σ → ℚ → (Except DriverError ℚ) × DriverState σ × List Txn
  | 0, st, accum => (.ok accum, st, [])
  | n + 1, st, accum =>
    match read iface pressure_osr temperature_osr st with
    | (.error e, st1, tr) => (.error e, st1, .sleep 0.001 :: tr)
    | (.ok pt, st1, tr) =>
      let r := read_altitude_loop iface pressure_osr temperature_osr n st1 (accum + pt.1)
      (r.1, r.2.1, (.sleep 0.001 :: tr) ++ r.2.2)

/-- `MS5607.read_altitude`: accumulate `samples` pressures, divide by
`samples`, apply `convert_altitude` against the sea-level reference. -/
noncomputable def read_altitude (iface : BusIface σ) (sea_level_pressure : ℚ)
    (samples pressure_osr temperature_osr : Nat) (st : DriverState σ) :
    (Except DriverError ℝ) × DriverState σ × List Txn :=
  let r := read_altitude_loop iface pressure_osr temperature_osr samples st 0
  (r.1.map (fun accum => convert_altitude (accum / (samples : ℚ)) sea_level_pressure),
    r.2.1, r.2.2)

/-- The list of the individually compensated pressures of `n` consecutive
read cycles (the first cycle's pressure at the head), or the first error
encountered. -/
def pressure_samples (iface : BusIface σ) (pressure_osr temperature_osr : Nat) :
    Nat → DriverState σ → Except DriverError (List ℚ)
  | 0, _ => .ok []
  | n + 1, st =>
    match read iface pressure_osr temperature_osr st with
    | (.error e, _, _) => .error e
    | (.ok pt, st1, _) =>
      match pressure_samples iface pressure_osr temperature_osr n st1 with
      | .error e => .error e
      | .ok ps => .ok (pt.1 :: ps)

/-- Whether a transaction is a 3-byte ADC-result read. -/
def Txn.isAdcRead : Txn → Bool
  | .read _ cmd size => cmd == CMD_READ_ADC && size == 3
  | _ => false

/-- Number of ADC-result reads in a trace. -/
def adcReadCount (tr : List Txn) : Nat := tr.countP Txn.isAdcRead

/-- `adcReadCount` distributes over concatenation. -/
theorem adcReadCount_append (l1 l2 : List Txn) :
    adcReadCount (l1 ++ l2) = adcReadCount l1 + adcReadCount l2 := by
  simp [adcReadCount, List.countP_append]

/-- A successful full `read` performs exactly two ADC reads. -/
theorem read_ok_adc_count (iface : BusIface σ) (posr tosr : Nat) (st : DriverState σ)
    {pt : ℚ × ℚ} {st2 : DriverState σ} {tr : List Txn}
    (h : read iface posr tosr st = (.ok pt, st2, tr)) : adcReadCount tr = 2 := by
  unfold read at h
  rcases hp : read_raw_pressure iface posr st with ⟨rp, stp, trp⟩
  simp only [hp] at h
  cases rp with
  | error e => simp at h
  | ok rawp =>
    rcases ht : read_raw_temperature iface tosr stp with ⟨rt, stt, trt⟩
    simp only [ht] at h
    cases rt with
    | error e => simp at h
    | ok rawt =>
      simp only [Prod.mk.injEq, Except.ok.injEq] at h
      obtain ⟨-, -, htr⟩ := h
      obtain ⟨cmdp, tp, bp, b1p, b2p, -, -, -, -, -, -, htrp⟩ :=
        read_raw_pressure_ok_inv iface posr st hp
      obtain ⟨cmdt, tt, bt, b1t, b2t, -, -, -, -, -, -, htrt⟩ :=
        read_raw_temperature_ok_inv iface tosr stp ht
      rw [← htr, htrp, htrt, adcReadCount_append]
      rfl

/-- If the sample recursion fails, the accumulation loop fails with the
same error, whatever the accumulator. -/
theorem read_altitude_loop_err (iface : BusIface σ) (posr tosr : Nat) :
    ∀ (n : Nat) (st : DriverState σ) (accum : ℚ) (e : DriverError),
      pressure_samples iface posr tosr n st = .error e →
      ∃ st2 tr, read_altitude_loop iface posr tosr n st accum = (.error e, st2, tr) := by
  intro n
  induction n with
  | zero =>
    intro st accum e h
    simp [pressure_samples] at h
  | succ n ih =>
    intro st accum e h
    rcases hr : read iface posr tosr st with ⟨r, st1, tr⟩
    cases r with
    | error e0 =>
      simp only [pressure_samples, hr] at h
      have he : e0 = e := by simpa using h
      refine ⟨st1, .sleep 0.001 :: tr, ?_⟩
      simp only [read_altitude_loop, hr, he]
    | ok pt =>
      simp only [pressure_samples, hr] at h
      cases hs : pressure_samples iface posr tosr n st1 with
      | error e1 =>
        rw [hs] at h
        have he : e1 = e := by simpa using h
        obtain ⟨st2, tr2, hl⟩ := ih st1 (accum + pt.1) e1 hs
        refine ⟨st2, (.sleep 0.001 :: tr) ++ tr2, ?_⟩
        simp only [read_altitude_loop, hr, hl, he]
      | ok ps1 =>
        rw [hs] at h
        simp at h
    
/-- If the sample recursion succeeds, the accumulation loop returns the
accumulator plus the sum of the samples, there are exactly `n` samples,
and the trace holds `2 * n` ADC reads. -/
theorem read_altitude_loop_ok (iface : BusIface σ) (posr tosr : Nat) :
    ∀ (n : Nat) (st : DriverState σ) (accum : ℚ) (ps : List ℚ),
      pressure_samples iface posr tosr n st = .ok ps →
      ∃ st2 tr, read_altitude_loop iface posr tosr n st accum = (.ok (accum + ps.sum), st2, tr) ∧
        ps.length = n ∧ adcReadCount tr = 2 * n := by
  intro n
  induction n with
  | zero =>
    intro st accum ps h
    obtain rfl : ps = [] := by simpa [pressure_samples] using h.symm
    exact ⟨st, [], by simp [read_altitude_loop], rfl, rfl⟩
  | succ n ih =>
    intro st accum ps h
    rcases hr : read iface posr tosr st with ⟨r, st1, tr⟩
    cases r with
    | error e0 =>
      simp [pressure_samples, hr] at h
    | ok pt =>
      simp only [pressure_samples, hr] at h
      cases hs : pressure_samples iface posr tosr n st1 with
      | error e1 =>
        rw [hs] at h
        simp at h
      | ok ps1 =>
        rw [hs] at h
        obtain rfl : ps = pt.1 :: ps1 := by simpa using h.symm
        obtain ⟨st2, tr2, hl, hlen, hcnt⟩ := ih st1 (accum + pt.1) ps1 hs
        refine ⟨st2, (.sleep 0.001 :: tr) ++ tr2, ?_, by simp [hlen], ?_⟩
        · simp only [read_altitude_loop, hr, hl]
          have hsum : accum + (pt.1 :: ps1).sum = accum + pt.1 + ps1.sum := by
            simp [List.sum_cons]
            ring
          rw [hsum]
        · have h2 : adcReadCount tr = 2 := read_ok_adc_count iface posr tosr st hr
          have h3 : adcReadCount ((.sleep 0.001 :: tr) ++ tr2) =
              adcReadCount (.sleep 0.001 :: tr) + adcReadCount tr2 :=
            adcReadCount_append _ _
          have h4 : adcReadCount (Txn.sleep 0.001 :: tr) = adcReadCount tr := by
            simp [adcReadCount, List.countP_cons, Txn.isAdcRead]
          omega

end MS5607

namespace MS5607

variable {σ : Type}

/-- C6: for `n ≥ 1` samples, `read_altitude` performs exactly `n` full read
cycles (two ADC reads per cycle), accumulates only the pressure component,
and the pressure fed into the altitude formula is the arithmetic mean of
the `n` individually compensated pressures; the result is
`convert_altitude` (that is, `44330.76923 * (1 - (mean / sea)^0.190264)`),
and the default sea-level reference `STANDARD_PRESSURE` is `1013.25`. -/
theorem read_altitude_mean_of_samples (iface : BusIface σ) (st : DriverState σ)
    (sea : ℚ) (posr tosr n : Nat) (ps : List ℚ)
    (hn : 1 ≤ n)
    (hps : pressure_samples iface posr tosr n st = .ok ps) :
    ps.length = n ∧
    (read_altitude iface sea n posr tosr st).1 =
      .ok (convert_altitude (ps.sum / (n : ℚ)) sea) ∧
    adcReadCount (read_altitude iface sea n posr tosr st).2.2 = 2 * n ∧
    STANDARD_PRESSURE = 1013.25 := by
  obtain ⟨st2, tr, hl, hlen, hcnt⟩ :=
    read_altitude_loop_ok iface posr tosr n st 0 ps hps
  refine ⟨hlen, ?_, ?_, rfl⟩
  · unfold read_altitude
    rw [hl]
    simp [Except.map]
  · unfold read_altitude
    rw [hl]
    simpa using hcnt

/-- C6 witness: one sample on the concrete zero bus with zero
coefficients compensates to pressure `0`, and the altitude call returns
the formula applied to the mean of that single sample. -/
theorem read_altitude_mean_of_samples_witness :
    (1 : Nat) ≤ 1 ∧
    pressure_samples zeroBus 4096 4096 1 zeroState = .ok [((0 : ℤ) : ℚ) / 100] ∧
    (([((0 : ℤ) : ℚ) / 100] : List ℚ).length = 1 ∧
     (read_altitude zeroBus STANDARD_PRESSURE 1 4096 4096 zeroState).1 =
       .ok (convert_altitude (([((0 : ℤ) : ℚ) / 100] : List ℚ).sum / ((1 : Nat) : ℚ))
         STANDARD_PRESSURE) ∧
     adcReadCount (read_altitude zeroBus STANDARD_PRESSURE 1 4096 4096 zeroState).2.2 = 2 * 1 ∧
     STANDARD_PRESSURE = 1013.25) :=
  ⟨le_refl 1, rfl,
   read_altitude_mean_of_samples zeroBus zeroState STANDARD_PRESSURE 4096 4096 1
     [((0 : ℤ) : ℚ) / 100] (le_refl 1) rfl⟩

/-- C7: if any bus read during any sample cycle fails, `read_altitude`
aborts and propagates that error; and a successful `read_altitude` result
always comes from the full list of `n` compensated samples — never from a
partial average. -/
theorem read_altitude_propagates_errors (iface : BusIface σ) (st : DriverState σ)
    (sea : ℚ) (posr tosr n : Nat) :
    (∀ e, pressure_samples iface posr tosr n st = .error e →
      (read_altitude iface sea n posr tosr st).1 = .error e) ∧
    (∀ a, (read_altitude iface sea n posr tosr st).1 = .ok a →
      ∃ ps, pressure_samples iface posr tosr n st = .ok ps ∧ ps.length = n ∧
        a = convert_altitude (ps.sum / (n : ℚ)) sea) := by
  constructor
  · intro e he
    obtain ⟨st2, tr, hl⟩ := read_altitude_loop_err iface posr tosr n st 0 e he
    unfold read_altitude
    rw [hl]
    simp [Except.map]
  · intro a ha
    cases hs : pressure_samples iface posr tosr n st with
    | error e =>
      obtain ⟨st2, tr, hl⟩ := read_altitude_loop_err iface posr tosr n st 0 e hs
      unfold read_altitude at ha
      rw [hl] at ha
      simp [Except.map] at ha
    | ok ps =>
      obtain ⟨st2, tr, hl, hlen, hcnt⟩ :=
        read_altitude_loop_ok iface posr tosr n st 0 ps hs
      unfold read_altitude at ha
      rw [hl] at ha
      simp [Except.map] at ha
      exact ⟨ps, rfl, hlen, ha.symm⟩

/-- C7 witness: on the concrete failing bus the first cycle's read fails
with bus error `5`, and `read_altitude` returns exactly that error. -/
theorem read_altitude_propagates_errors_witness :
    pressure_samples failBus 4096 4096 1 zeroState = .error (.bus ⟨5⟩) ∧
    (read_altitude failBus STANDARD_PRESSURE 1 4096 4096 zeroState).1 = .error (.bus ⟨5⟩) :=
  ⟨rfl,
   (read_altitude_propagates_errors failBus zeroState STANDARD_PRESSURE 4096 4096 1).1
     (.bus ⟨5⟩) rfl⟩

end MS5607

namespace MS5607

variable {σ : Type}

/-! ## Claim C9: calibration is read once; later operations never re-read -/

/-- The six ROM coefficient-read commands, in the fixed order C1 to C6. -/
def romReadCommands : List Nat :=
  [CMD_READ_C1, CMD_READ_C2, CMD_READ_C3, CMD_READ_C4, CMD_READ_C5, CMD_READ_C6]

/-- Whether a transaction is a ROM coefficient read. -/
def Txn.isRomRead : Txn → Bool
  | .read _ cmd _ => decide (cmd ∈ romReadCommands)
  | _ => false

/-- A write is never a ROM read. -/
theorem isRomRead_write (a c : Nat) : (Txn.write a c).isRomRead = false := rfl

/-- A sleep is never a ROM read. -/
theorem isRomRead_sleep (q : ℚ) : (Txn.sleep q).isRomRead = false := rfl

/-- The ADC-result read is not a ROM read. -/
theorem isRomRead_adc (a : Nat) : (Txn.read a CMD_READ_ADC 3).isRomRead = false := rfl

/-- A trace contains no ROM coefficient read. -/
def NoRomRead (tr : List Txn) : Prop := ∀ t ∈ tr, t.isRomRead = false

/-- `NoRomRead` over a concatenation. -/
theorem NoRomRead_append {l1 l2 : List Txn} (h1 : NoRomRead l1) (h2 : NoRomRead l2) :
    NoRomRead (l1 ++ l2) := by
  intro t ht
  rcases List.mem_append.1 ht with h | h
  · exact h1 t h
  · exact h2 t h

/-- `NoRomRead` over a cons. -/
theorem NoRomRead_cons {t : Txn} {l : List Txn} (h1 : t.isRomRead = false)
    (h2 : NoRomRead l) : NoRomRead (t :: l) := by
  intro u hu
  rcases List.mem_cons.1 hu with h | h
  · exact h ▸ h1
  · exact h2 u h

/-- An operation's outcome preserves the stored coefficients and device
address, and its trace holds no ROM coefficient read. -/
def FramePreserved {α : Type} (st : DriverState σ)
    (out : (Except DriverError α) × DriverState σ × List Txn) : Prop :=
  out.2.1.coeffs = st.coeffs ∧ out.2.1.address = st.address ∧ NoRomRead out.2.2

/-- `read_raw_pressure` preserves the driver frame. -/
theorem read_raw_pressure_frame (iface : BusIface σ) (osr : Nat) (st : DriverState σ) :
    FramePreserved st (read_raw_pressure iface osr st) := by
  unfold FramePreserved read_raw_pressure
  cases hsel : SELECT_PRESSURE_COMMANDS osr with
  | none => exact ⟨rfl, rfl, by simp [NoRomRead]⟩
  | some cmd =>
    dsimp only
    cases hw : iface.writeByte st.bus st.address cmd with
    | error e =>
      dsimp only
      refine ⟨rfl, rfl, ?_⟩
      simp [NoRomRead, isRomRead_write]
    | ok bus1 =>
      dsimp only
      cases hct : CONVERSION_TIMES osr with
      | none =>
        dsimp only
        refine ⟨rfl, rfl, ?_⟩
        simp [NoRomRead, isRomRead_write]
      | some t =>
        dsimp only
        unfold mread
        cases hr : iface.readBlock bus1 st.address CMD_READ_ADC 3 with
        | error e =>
          dsimp only
          refine ⟨rfl, rfl, ?_⟩
          simp [NoRomRead, isRomRead_write, isRomRead_sleep, isRomRead_adc]
        | ok pr =>
          obtain ⟨bytes, bus2⟩ := pr
          dsimp only
          refine ⟨rfl, rfl, ?_⟩
          simp [NoRomRead, isRomRead_write, isRomRead_sleep, isRomRead_adc]

/-- `read_raw_temperature` preserves the driver frame. -/
theorem read_raw_temperature_frame (iface : BusIface σ) (osr : Nat) (st : DriverState σ) :
    FramePreserved st (read_raw_temperature iface osr st) := by
  unfold FramePreserved read_raw_temperature
  cases hsel : SELECT_TEMPERATURE_COMMANDS osr with
  | none => exact ⟨rfl, rfl, by simp [NoRomRead]⟩
  | some cmd =>
    dsimp only
    cases hw : iface.writeByte st.bus st.address cmd with
    | error e =>
      dsimp only
      refine ⟨rfl, rfl, ?_⟩
      simp [NoRomRead, isRomRead_write]
    | ok bus1 =>
      dsimp only
      cases hct : CONVERSION_TIMES osr with
      | none =>
        dsimp only
        refine ⟨rfl, rfl, ?_⟩
        simp [NoRomRead, isRomRead_write]
      | some t =>
        dsimp only
        unfold mread
        cases hr : iface.readBlock bus1 st.address CMD_READ_ADC 3 with
        | error e =>
          dsimp only
          refine ⟨rfl, rfl, ?_⟩
          simp [NoRomRead, isRomRead_write, isRomRead_sleep, isRomRead_adc]
        | ok pr =>
          obtain ⟨bytes, bus2⟩ := pr
          dsimp only
          refine ⟨rfl, rfl, ?_⟩
          simp [NoRomRead, isRomRead_write, isRomRead_sleep, isRomRead_adc]

/-- `read` preserves the driver frame. -/
theorem read_frame (iface : BusIface σ) (posr tosr : Nat) (st : DriverState σ) :
    FramePreserved st (read iface posr tosr st) := by
  unfold read
  rcases hp : read_raw_pressure iface posr st with ⟨rp, stp, trp⟩
  have Fp := read_raw_pressure_frame iface posr st
  rw [hp] at Fp
  obtain ⟨Fp1, Fp2, Fp3⟩ := Fp
  cases rp with
  | error e => exact ⟨Fp1, Fp2, Fp3⟩
  | ok rawp =>
    dsimp only
    rcases ht : read_raw_temperature iface tosr stp with ⟨rt, stt, trt⟩
    have Ft := read_raw_temperature_frame iface tosr stp
    rw [ht] at Ft
    obtain ⟨Ft1, Ft2, Ft3⟩ := Ft
    cases rt with
    | error e =>
      exact ⟨Ft1.trans Fp1, Ft2.trans Fp2, NoRomRead_append Fp3 Ft3⟩
    | ok rawt =>
      exact ⟨Ft1.trans Fp1, Ft2.trans Fp2, NoRomRead_append Fp3 Ft3⟩

/-- The accumulation loop preserves the driver frame. -/
theorem read_altitude_loop_frame (iface : BusIface σ) (posr tosr : Nat) :
    ∀ (n : Nat) (st : DriverState σ) (accum : ℚ),
      FramePreserved st (read_altitude_loop iface posr tosr n st accum) := by
  intro n
  induction n with
  | zero =>
    intro st accum
    exact ⟨rfl, rfl, by simp [NoRomRead, read_altitude_loop]⟩
  | succ n ih =>
    intro st accum
    unfold FramePreserved read_altitude_loop
    rcases hr : read iface posr tosr st with ⟨r, st1, tr⟩
    have Fr := read_frame iface posr tosr st
    rw [hr] at Fr
    obtain ⟨Fr1, Fr2, Fr3⟩ := Fr
    cases r with
    | error e =>
      refine ⟨Fr1, Fr2, ?_⟩
      exact NoRomRead_cons (isRomRead_sleep 0.001) Fr3
    | ok pt =>
      obtain ⟨F1, F2, F3⟩ := ih st1 (accum + pt.1)
      refine ⟨F1.trans Fr1, F2.trans Fr2, ?_⟩
      refine NoRomRead_append ?_ F3
      exact NoRomRead_cons (isRomRead_sleep 0.001) Fr3

/-- `read_altitude` preserves the driver frame. -/
theorem read_altitude_frame (iface : BusIface σ) (sea : ℚ) (n posr tosr : Nat)
    (st : DriverState σ) :
    FramePreserved st (read_altitude iface sea n posr tosr st) := by
  unfold read_altitude
  obtain ⟨F1, F2, F3⟩ := read_altitude_loop_frame iface posr tosr n st 0
  exact ⟨F1, F2, F3⟩

end MS5607

namespace MS5607

variable {σ : Type}

/-- `MS5607._read_calibration_coeffs`: six 2-byte reads with the ROM
commands, in the fixed order C1 to C6; any failure aborts. -/
def read_calibration_coeffs (iface : BusIface σ) (bus : σ) (addr : Nat) :
    (Except BusError (Coeffs × σ)) × List Txn :=
  match mread iface bus addr CMD_READ_C1 2 with
  | (.error e, tr1) => (.error e, tr1)
  | (.ok (c1, b1), tr1) =>
    match mread iface b1 addr CMD_READ_C2 2 with
    | (.error e, tr2) => (.error e, tr1 ++ tr2)
    | (.ok (c2, b2), tr2) =>
      match mread iface b2 addr CMD_READ_C3 2 with
      | (.error e, tr3) => (.error e, tr1 ++ tr2 ++ tr3)
      | (.ok (c3, b3), tr3) =>
        match mread iface b3 addr CMD_READ_C4 2 with
        | (.error e, tr4) => (.error e, tr1 ++ tr2 ++ tr3 ++ tr4)
        | (.ok (c4, b4), tr4) =>
          match mread iface b4 addr CMD_READ_C5 2 with
          | (.error e, tr5) => (.error e, tr1 ++ tr2 ++ tr3 ++ tr4 ++ tr5)
          | (.ok (c5, b5), tr5) =>
            match mread iface b5 addr CMD_READ_C6 2 with
            | (.error e, tr6) => (.error e, tr1 ++ tr2 ++ tr3 ++ tr4 ++ tr5 ++ tr6)
            | (.ok (c6, b6), tr6) =>
              (.ok (⟨(c1 : ℤ), (c2 : ℤ), (c3 : ℤ), (c4 : ℤ), (c5 : ℤ), (c6 : ℤ)⟩, b6),
                tr1 ++ tr2 ++ tr3 ++ tr4 ++ tr5 ++ tr6)

/-- `MS5607.__init__`: resolve the address default, reset the device,
sleep 5 ms, then read the calibration coefficients.  A bus failure leaves
no usable driver state. -/
def init (iface : BusIface σ) (bus : σ) (address : Option Nat) :
    (Except DriverError (DriverState σ)) × List Txn :=
  let addr := address.getD DEFAULT_SENSOR_ADDR
  match iface.writeByte bus addr CMD_RESET with
  | .error e => (.error (.bus e), [.write addr CMD_RESET])
  | .ok bus1 =>
    match read_calibration_coeffs iface bus1 addr with
    | (.error e, tr) => (.error (.bus e), .write addr CMD_RESET :: .sleep 0.005 :: tr)
    | (.ok (coeffs, bus2), tr) =>
      (.ok ⟨bus2, addr, coeffs⟩, .write addr CMD_RESET :: .sleep 0.005 :: tr)

/-- Inversion of a successful calibration read: the trace is exactly the
six 2-byte ROM reads in the order C1 to C6. -/
theorem read_calibration_coeffs_ok_inv (iface : BusIface σ) (bus : σ) (addr : Nat)
    {cs : Coeffs × σ} {tr : List Txn}
    (h : read_calibration_coeffs iface bus addr = (.ok cs, tr)) :
    tr = [.read addr CMD_READ_C1 2, .read addr CMD_READ_C2 2, .read addr CMD_READ_C3 2,
          .read addr CMD_READ_C4 2, .read addr CMD_READ_C5 2, .read addr CMD_READ_C6 2] := by
  unfold read_calibration_coeffs mread at h
  cases h1 : iface.readBlock bus addr CMD_READ_C1 2 with
  | error e => simp [h1] at h
  | ok p1 =>
    obtain ⟨y1, b1⟩ := p1
    simp only [h1] at h
    cases h2 : iface.readBlock b1 addr CMD_READ_C2 2 with
    | error e => simp [h2] at h
    | ok p2 =>
      obtain ⟨y2, b2⟩ := p2
      simp only [h2] at h
      cases h3 : iface.readBlock b2 addr CMD_READ_C3 2 with
      | error e => simp [h3] at h
      | ok p3 =>
        obtain ⟨y3, b3⟩ := p3
        simp only [h3] at h
        cases h4 : iface.readBlock b3 addr CMD_READ_C4 2 with
        | error e => simp [h4] at h
        | ok p4 =>
          obtain ⟨y4, b4⟩ := p4
          simp only [h4] at h
          cases h5 : iface.readBlock b4 addr CMD_READ_C5 2 with
          | error e => simp [h5] at h
          | ok p5 =>
            obtain ⟨y5, b5⟩ := p5
            simp only [h5] at h
            cases h6 : iface.readBlock b5 addr CMD_READ_C6 2 with
            | error e => simp [h6] at h
            | ok p6 =>
              obtain ⟨y6, b6⟩ := p6
              simp only [h6] at h
              simp only [Prod.mk.injEq, Except.ok.injEq] at h
              obtain ⟨-, htr⟩ := h
              simp [← htr]

/-- C9: a successful `init` issues exactly the reset write, the 5 ms
settle, and the six 2-byte ROM coefficient reads with commands
`0xA2, 0xA4, 0xA6, 0xA8, 0xAA, 0xAC` in fixed order C1 to C6; the stored
address is the resolved one; and every subsequent driver operation
(`read_raw_pressure`, `read_raw_temperature`, `read`, `read_altitude`)
leaves the stored coefficients and address unchanged and issues no further
ROM-read command (`convert_raw_readings` is a pure function of the
coefficients and raws and touches no state at all). -/
theorem calibration_read_once_and_never_reread (iface : BusIface σ) (bus : σ)
    (addrArg : Option Nat) (st1 : DriverState σ) (tr : List Txn)
    (h : init iface bus addrArg = (.ok st1, tr)) :
    tr = [.write (addrArg.getD DEFAULT_SENSOR_ADDR) CMD_RESET,
          .sleep 0.005,
          .read (addrArg.getD DEFAULT_SENSOR_ADDR) CMD_READ_C1 2,
          .read (addrArg.getD DEFAULT_SENSOR_ADDR) CMD_READ_C2 2,
          .read (addrArg.getD DEFAULT_SENSOR_ADDR) CMD_READ_C3 2,
          .read (addrArg.getD DEFAULT_SENSOR_ADDR) CMD_READ_C4 2,
          .read (addrArg.getD DEFAULT_SENSOR_ADDR) CMD_READ_C5 2,
          .read (addrArg.getD DEFAULT_SENSOR_ADDR) CMD_READ_C6 2] ∧
    st1.address = addrArg.getD DEFAULT_SENSOR_ADDR ∧
    (∀ (st : DriverState σ) (osr : Nat),
      FramePreserved st (read_raw_pressure iface osr st)) ∧
    (∀ (st : DriverState σ) (osr : Nat),
      FramePreserved st (read_raw_temperature iface osr st)) ∧
    (∀ (st : DriverState σ) (posr tosr : Nat),
      FramePreserved st (read iface posr tosr st)) ∧
    (∀ (st : DriverState σ) (sea : ℚ) (n posr tosr : Nat),
      FramePreserved st (read_altitude iface sea n posr tosr st)) := by
  refine ⟨?_, ?_, fun st osr => read_raw_pressure_frame iface osr st,
    fun st osr => read_raw_temperature_frame iface osr st,
    fun st posr tosr => read_frame iface posr tosr st,
    fun st sea n posr tosr => read_altitude_frame iface sea n posr tosr st⟩ <;>
  · unfold init at h
    cases hw : iface.writeByte bus (addrArg.getD DEFAULT_SENSOR_ADDR) CMD_RESET with
    | error e => simp [hw] at h
    | ok bus1 =>
      simp only [hw] at h
      cases hc : read_calibration_coeffs iface bus1 (addrArg.getD DEFAULT_SENSOR_ADDR) with
      | mk rc trc =>
        rw [hc] at h
        cases rc with
        | error e => simp at h
        | ok pair =>
          obtain ⟨coeffs, bus2⟩ := pair
          simp only [Prod.mk.injEq, Except.ok.injEq] at h
          obtain ⟨hst, htr⟩ := h
          first
            | (rw [← htr, read_calibration_coeffs_ok_inv iface bus1
                (addrArg.getD DEFAULT_SENSOR_ADDR) hc])
            | (rw [← hst])

end MS5607

namespace MS5607

/-- C9 witness: on the concrete zero bus, `init` succeeds with the reset
write, the settle sleep, and exactly the six ROM reads in order, and all
subsequent operations preserve the frame. -/
theorem calibration_read_once_and_never_reread_witness :
    ([Txn.write 0x76 0x1E, Txn.sleep 0.005, Txn.read 0x76 0xA2 2, Txn.read 0x76 0xA4 2,
      Txn.read 0x76 0xA6 2, Txn.read 0x76 0xA8 2, Txn.read 0x76 0xAA 2, Txn.read 0x76 0xAC 2] :
      List Txn) =
      [.write ((none : Option Nat).getD DEFAULT_SENSOR_ADDR) CMD_RESET,
       .sleep 0.005,
       .read ((none : Option Nat).getD DEFAULT_SENSOR_ADDR) CMD_READ_C1 2,
       .read ((none : Option Nat).getD DEFAULT_SENSOR_ADDR) CMD_READ_C2 2,
       .read ((none : Option Nat).getD DEFAULT_SENSOR_ADDR) CMD_READ_C3 2,
       .read ((none : Option Nat).getD DEFAULT_SENSOR_ADDR) CMD_READ_C4 2,
       .read ((none : Option Nat).getD DEFAULT_SENSOR_ADDR) CMD_READ_C5 2,
       .read ((none : Option Nat).getD DEFAULT_SENSOR_ADDR) CMD_READ_C6 2] ∧
    zeroState.address = (none : Option Nat).getD DEFAULT_SENSOR_ADDR ∧
    (∀ (st : DriverState Unit) (osr : Nat),
      FramePreserved st (read_raw_pressure zeroBus osr st)) ∧
    (∀ (st : DriverState Unit) (osr : Nat),
      FramePreserved st (read_raw_temperature zeroBus osr st)) ∧
    (∀ (st : DriverState Unit) (posr tosr : Nat),
      FramePreserved st (read zeroBus posr tosr st)) ∧
    (∀ (st : DriverState Unit) (sea : ℚ) (n posr tosr : Nat),
      FramePreserved st (read_altitude zeroBus sea n posr tosr st)) :=
  calibration_read_once_and_never_reread zeroBus () none zeroState
    [Txn.write 0x76 0x1E, Txn.sleep 0.005, Txn.read 0x76 0xA2 2, Txn.read 0x76 0xA4 2,
     Txn.read 0x76 0xA6 2, Txn.read 0x76 0xA8 2, Txn.read 0x76 0xAA 2, Txn.read 0x76 0xAC 2]
    rfl

end MS5607

namespace MS5607

/-- C3 witness: the amended activation statement instantiated at the
datasheet's golden input. -/
theorem second_order_correction_activation_witness :
    (let d := convertDetail goldenCoeffs 6465444 8077636
     (d.TEMP = d.TEMP1 - d.T2) ∧
     ((d.T2, d.OFF2, d.SENS2) ≠ (0, 0, 0) ↔ d.TEMP1 < 2000) ∧
     (d.TEMP1 < 2000 → 0 < d.OFF2 ∧ 0 < d.SENS2) ∧
     (2000 ≤ d.TEMP1 → d.T2 = 0 ∧ d.OFF2 = 0 ∧ d.SENS2 = 0) ∧
     (d.T2 = if d.TEMP1 < 2000 then Int.fdiv (d.dT ^ 2) (2 ^ 31) else 0) ∧
     (d.OFF2 =
       (if d.TEMP1 < 2000 then Int.fdiv (61 * (d.TEMP1 - 2000) ^ 2) (2 ^ 4) else 0) +
       (if d.TEMP1 < -1500 then 15 * (d.TEMP1 + 1500) ^ 2 else 0)) ∧
     (d.SENS2 =
       (if d.TEMP1 < 2000 then 2 * (d.TEMP1 - 2000) ^ 2 else 0) +
       (if d.TEMP1 < -1500 then 8 * (d.TEMP1 + 1500) ^ 2 else 0)) ∧
     ((if d.TEMP1 < -1500 then (15 : ℤ) * (d.TEMP1 + 1500) ^ 2 else 0) ≠ 0 ↔
       d.TEMP1 < -1500)) :=
  second_order_correction_activation goldenCoeffs 6465444 8077636

/-- C10 witness: the default-OSR statement instantiated on the concrete
zero bus. -/
theorem read_raw_temperature_default_uses_256_witness :
    READ_RAW_TEMPERATURE_DEFAULT_OSR = 256 ∧
    SELECT_TEMPERATURE_COMMANDS READ_RAW_TEMPERATURE_DEFAULT_OSR = some 0x50 ∧
    CONVERSION_TIMES READ_RAW_TEMPERATURE_DEFAULT_OSR = some (0.60 / 1000) ∧
    READ_DEFAULT_TEMPERATURE_OSR = 4096 ∧
    SELECT_TEMPERATURE_COMMANDS READ_DEFAULT_TEMPERATURE_OSR = some 0x58 ∧
    (0x50 : Nat) ≠ 0x58 ∧
    ((read_raw_temperature_default zeroBus zeroState).2.2 =
       [.write zeroState.address 0x50] ∨
     (read_raw_temperature_default zeroBus zeroState).2.2 =
       [.write zeroState.address 0x50, .sleep (0.60 / 1000),
        .read zeroState.address CMD_READ_ADC 3]) :=
  read_raw_temperature_default_uses_256 zeroBus zeroState

end MS5607
